import Mathlib

/-!
Verification development for the TranslucentTB entry file (`TranslucentTB/main.cpp`).

The file embeds the configuration data model, the config load/save path, the
tray-menu binding combinators and the `WM_FILECHANGED` reload path from
`main.cpp`, together with spec-modelled versions of the components whose code
lives in headers that are not part of the source tree (the `ACCENT_STATE` enum,
resource menu IDs, and the `TaskbarAttributeWorker` appearance resolver and
attribute applier).
-/

namespace TTB

/-- Modelled from the spec: the `ACCENT_STATE` enum of `undoc/swca.hpp` is not in
the source tree; the spec restricts the `Accent` field to exactly these five
states, which are also exactly the keys appearing in every accent map of
`main.cpp`. -/
inductive ACCENT_STATE where
  | ACCENT_NORMAL
  | ACCENT_ENABLE_TRANSPARENTGRADIENT
  | ACCENT_ENABLE_GRADIENT
  | ACCENT_ENABLE_BLURBEHIND
  | ACCENT_ENABLE_ACRYLICBLURBEHIND
deriving DecidableEq, Repr

export ACCENT_STATE (ACCENT_NORMAL ACCENT_ENABLE_TRANSPARENTGRADIENT
  ACCENT_ENABLE_GRADIENT ACCENT_ENABLE_BLURBEHIND ACCENT_ENABLE_ACRYLICBLURBEHIND)

/-- `PeekBehavior` as used by `PEEK_BUTTON_MAP` in `main.cpp` (declaration lives
in the absent `config/config.hpp`; constructor set taken from the map keys). -/
inductive PeekBehavior where
  | AlwaysShow
  | WindowMaximisedOnMainMonitor
  | WindowMaximisedOnAnyMonitor
  | DesktopIsForegroundWindow
  | AlwaysHide
deriving DecidableEq, Repr

/-- spdlog severity levels used by `main.cpp` (`LOG_BUTTON_MAP` and the
`LogVerbosity` field); the spdlog header is external. -/
inductive LogLevel where
  | debug
  | info
  | warn
  | err
  | critical
  | off
deriving DecidableEq, Repr

/-- `TaskbarAppearance`: accent state plus a 32-bit RGBA colour (`COLORREF`
modelled as `Nat`; only equality on it matters to this file). Declaration lives
in the absent `config/taskbarappearance.hpp`; field names are those `main.cpp`
dereferences (`appearance.Color`, `appearance.Accent`). -/
structure TaskbarAppearance where
  Accent : ACCENT_STATE
  Color : Nat
deriving DecidableEq, Repr

/-- `OptionalTaskbarAppearance`: a `TaskbarAppearance` together with an
`Enabled` flag (`main.cpp` dereferences `appearance.Enabled`, `.Accent`,
`.Color`). -/
structure OptionalTaskbarAppearance where
  Enabled : Bool
  Accent : ACCENT_STATE
  Color : Nat
deriving DecidableEq, Repr

/-- The plain appearance carried by an optional one (the C++ type inherits
`TaskbarAppearance`). -/
def OptionalTaskbarAppearance.toAppearance (o : OptionalTaskbarAppearance) :
    TaskbarAppearance :=
  { Accent := o.Accent, Color := o.Color }

/-- The `Config` aggregate. `config/config.hpp` is not in the source tree; the
field list is exactly the set of fields `main.cpp` reads or binds
(`DesktopAppearance`, the five optional appearances, `Peek`,
`UseRegularAppearanceWhenPeeking`, `HideTray`, `LogVerbosity`,
`DisableSaving`), matching the spec's data model. -/
structure Config where
  DesktopAppearance : TaskbarAppearance
  VisibleWindowAppearance : OptionalTaskbarAppearance
  MaximisedWindowAppearance : OptionalTaskbarAppearance
  StartOpenedAppearance : OptionalTaskbarAppearance
  CortanaOpenedAppearance : OptionalTaskbarAppearance
  TimelineOpenedAppearance : OptionalTaskbarAppearance
  Peek : PeekBehavior
  UseRegularAppearanceWhenPeeking : Bool
  HideTray : Bool
  LogVerbosity : LogLevel
  DisableSaving : Bool
deriving DecidableEq, Repr

/-- Modelled from the spec: the default-constructed `Config` (`Config cfg;` in
`LoadConfig`). The concrete default field values live in the absent
`config/config.hpp`; only the identity of this value matters to the theorems
below, never the particular defaults chosen here. -/
def defaultConfig : Config where
  DesktopAppearance := { Accent := ACCENT_ENABLE_TRANSPARENTGRADIENT, Color := 0 }
  VisibleWindowAppearance :=
    { Enabled := false, Accent := ACCENT_ENABLE_TRANSPARENTGRADIENT, Color := 0 }
  MaximisedWindowAppearance :=
    { Enabled := true, Accent := ACCENT_ENABLE_BLURBEHIND, Color := 0 }
  StartOpenedAppearance := { Enabled := true, Accent := ACCENT_NORMAL, Color := 0 }
  CortanaOpenedAppearance := { Enabled := true, Accent := ACCENT_NORMAL, Color := 0 }
  TimelineOpenedAppearance := { Enabled := true, Accent := ACCENT_NORMAL, Color := 0 }
  Peek := PeekBehavior.WindowMaximisedOnMainMonitor
  UseRegularAppearanceWhenPeeking := true
  HideTray := false
  LogVerbosity := LogLevel.info
  DisableSaving := false

/-! ### Resource menu IDs

Modelled from the spec: `resources/ids.h` is not in the source tree. The
numeric values are arbitrary; only their pairwise distinctness matters, which
holds of the real resource IDs. -/

def ID_DESKTOP_NORMAL : Nat := 1001
def ID_DESKTOP_CLEAR : Nat := 1002
def ID_DESKTOP_OPAQUE : Nat := 1003
def ID_DESKTOP_BLUR : Nat := 1004
def ID_DESKTOP_ACRYLIC : Nat := 1005
def ID_DESKTOP_COLOR : Nat := 1006
def ID_DESKTOP_ON_PEEK : Nat := 1007
def ID_VISIBLE_NORMAL : Nat := 1011
def ID_VISIBLE_CLEAR : Nat := 1012
def ID_VISIBLE_OPAQUE : Nat := 1013
def ID_VISIBLE_BLUR : Nat := 1014
def ID_VISIBLE_ACRYLIC : Nat := 1015
def ID_VISIBLE_COLOR : Nat := 1016
def ID_VISIBLE : Nat := 1017
def ID_MAXIMISED_NORMAL : Nat := 1021
def ID_MAXIMISED_CLEAR : Nat := 1022
def ID_MAXIMISED_OPAQUE : Nat := 1023
def ID_MAXIMISED_BLUR : Nat := 1024
def ID_MAXIMISED_ACRYLIC : Nat := 1025
def ID_MAXIMISED_COLOR : Nat := 1026
def ID_MAXIMISED : Nat := 1027
def ID_START_NORMAL : Nat := 1031
def ID_START_CLEAR : Nat := 1032
def ID_START_OPAQUE : Nat := 1033
def ID_START_BLUR : Nat := 1034
def ID_START_ACRYLIC : Nat := 1035
def ID_START_COLOR : Nat := 1036
def ID_START : Nat := 1037
def ID_CORTANA_NORMAL : Nat := 1041
def ID_CORTANA_CLEAR : Nat := 1042
def ID_CORTANA_OPAQUE : Nat := 1043
def ID_CORTANA_BLUR : Nat := 1044
def ID_CORTANA_ACRYLIC : Nat := 1045
def ID_CORTANA_COLOR : Nat := 1046
def ID_CORTANA : Nat := 1047
def ID_TIMELINE_NORMAL : Nat := 1051
def ID_TIMELINE_CLEAR : Nat := 1052
def ID_TIMELINE_OPAQUE : Nat := 1053
def ID_TIMELINE_BLUR : Nat := 1054
def ID_TIMELINE_ACRYLIC : Nat := 1055
def ID_TIMELINE_COLOR : Nat := 1056
def ID_TIMELINE : Nat := 1057
def ID_PEEK_SHOW : Nat := 1061
def ID_PEEK_DYNAMIC_MAIN_MONITOR : Nat := 1062
def ID_PEEK_DYNAMIC_ANY_MONITOR : Nat := 1063
def ID_PEEK_DYNAMIC_FOREGROUND_DESKTOP : Nat := 1064
def ID_PEEK_HIDE : Nat := 1065
def ID_LOG_DEBUG : Nat := 1071
def ID_LOG_INFO : Nat := 1072
def ID_LOG_WARN : Nat := 1073
def ID_LOG_ERR : Nat := 1074
def ID_LOG_OFF : Nat := 1075
def ID_OPENLOG : Nat := 1081
def ID_LOG : Nat := 1082
def ID_EDITSETTINGS : Nat := 1083
def ID_RETURNTODEFAULTSETTINGS : Nat := 1084
def ID_DISABLESAVING : Nat := 1085
def ID_HIDETRAY : Nat := 1086
def ID_DUMPWORKER : Nat := 1087
def ID_RESETWORKER : Nat := 1088
def ID_ABOUT : Nat := 1089
def ID_EXITWITHOUTSAVING : Nat := 1090
def ID_AUTOSTART : Nat := 1091
def ID_TIPS : Nat := 1092
def ID_EXIT : Nat := 1093

/-- The `WM_FILECHANGED` window message posted by the folder-change callback
(`WM_APP`-ranged constant; exact numeric value is immaterial). -/
def WM_FILECHANGED : Nat := 32769

/-! ### The accent-state-to-menu-ID maps of `main.cpp`

Each `std::unordered_map<ACCENT_STATE, uint32_t>` is embedded as an association
list with the entries in the source's textual order (unordered-map iteration
order is unspecified in C++; no theorem below depends on the order). -/

def DESKTOP_BUTTOM_MAP : List (ACCENT_STATE × Nat) :=
  [ (ACCENT_NORMAL,                     ID_DESKTOP_NORMAL),
    (ACCENT_ENABLE_TRANSPARENTGRADIENT, ID_DESKTOP_CLEAR),
    (ACCENT_ENABLE_GRADIENT,            ID_DESKTOP_OPAQUE),
    (ACCENT_ENABLE_BLURBEHIND,          ID_DESKTOP_BLUR),
    (ACCENT_ENABLE_ACRYLICBLURBEHIND,   ID_DESKTOP_ACRYLIC) ]

def VISIBLE_BUTTOM_MAP : List (ACCENT_STATE × Nat) :=
  [ (ACCENT_NORMAL,                     ID_VISIBLE_NORMAL),
    (ACCENT_ENABLE_TRANSPARENTGRADIENT, ID_VISIBLE_CLEAR),
    (ACCENT_ENABLE_GRADIENT,            ID_VISIBLE_OPAQUE),
    (ACCENT_ENABLE_BLURBEHIND,          ID_VISIBLE_BLUR),
    (ACCENT_ENABLE_ACRYLICBLURBEHIND,   ID_VISIBLE_ACRYLIC) ]

def MAXIMISED_BUTTON_MAP : List (ACCENT_STATE × Nat) :=
  [ (ACCENT_NORMAL,                     ID_MAXIMISED_NORMAL),
    (ACCENT_ENABLE_TRANSPARENTGRADIENT, ID_MAXIMISED_CLEAR),
    (ACCENT_ENABLE_GRADIENT,            ID_MAXIMISED_OPAQUE),
    (ACCENT_ENABLE_BLURBEHIND,          ID_MAXIMISED_BLUR),
    (ACCENT_ENABLE_ACRYLICBLURBEHIND,   ID_MAXIMISED_ACRYLIC) ]

def START_BUTTON_MAP : List (ACCENT_STATE × Nat) :=
  [ (ACCENT_NORMAL,                     ID_START_NORMAL),
    (ACCENT_ENABLE_TRANSPARENTGRADIENT, ID_START_CLEAR),
    (ACCENT_ENABLE_GRADIENT,            ID_START_OPAQUE),
    (ACCENT_ENABLE_BLURBEHIND,          ID_START_BLUR),
    (ACCENT_ENABLE_ACRYLICBLURBEHIND,   ID_START_ACRYLIC) ]

def CORTANA_BUTTON_MAP : List (ACCENT_STATE × Nat) :=
  [ (ACCENT_NORMAL,                     ID_CORTANA_NORMAL),
    (ACCENT_ENABLE_TRANSPARENTGRADIENT, ID_CORTANA_CLEAR),
    (ACCENT_ENABLE_GRADIENT,            ID_CORTANA_OPAQUE),
    (ACCENT_ENABLE_BLURBEHIND,          ID_CORTANA_BLUR),
    (ACCENT_ENABLE_ACRYLICBLURBEHIND,   ID_CORTANA_ACRYLIC) ]

def TIMELINE_BUTTON_MAP : List (ACCENT_STATE × Nat) :=
  [ (ACCENT_NORMAL,                     ID_TIMELINE_NORMAL),
    (ACCENT_ENABLE_TRANSPARENTGRADIENT, ID_TIMELINE_CLEAR),
    (ACCENT_ENABLE_GRADIENT,            ID_TIMELINE_OPAQUE),
    (ACCENT_ENABLE_BLURBEHIND,          ID_TIMELINE_BLUR),
    (ACCENT_ENABLE_ACRYLICBLURBEHIND,   ID_TIMELINE_ACRYLIC) ]

def PEEK_BUTTON_MAP : List (PeekBehavior × Nat) :=
  [ (PeekBehavior.AlwaysShow,                   ID_PEEK_SHOW),
    (PeekBehavior.WindowMaximisedOnMainMonitor, ID_PEEK_DYNAMIC_MAIN_MONITOR),
    (PeekBehavior.WindowMaximisedOnAnyMonitor,  ID_PEEK_DYNAMIC_ANY_MONITOR),
    (PeekBehavior.DesktopIsForegroundWindow,    ID_PEEK_DYNAMIC_FOREGROUND_DESKTOP),
    (PeekBehavior.AlwaysHide,                   ID_PEEK_HIDE) ]

def LOG_BUTTON_MAP : List (LogLevel × Nat) :=
  [ (LogLevel.debug, ID_LOG_DEBUG),
    (LogLevel.info,  ID_LOG_INFO),
    (LogLevel.warn,  ID_LOG_WARN),
    (LogLevel.err,   ID_LOG_ERR),
    (LogLevel.off,   ID_LOG_OFF) ]

/-- The key set of an accent map, in entry order. -/
def accentKeys (m : List (ACCENT_STATE × Nat)) : List ACCENT_STATE :=
  m.map Prod.fst

/-! ### Configuration file handling (`LoadConfig`, `SaveConfig`, `SetConfig`)

The filesystem is modelled at the granularity `main.cpp` observes it: the node
at the config-file path is absent, a directory, or a regular file holding a
parsed document. JSON parsing/serialization (`Config::Deserialize` /
`Config::Serialize`, in the absent `config/config.hpp` and excluded by the
spec) is kept abstract: the document type `Doc` and the
deserialize/serialize functions are parameters. -/

/-- The state of the filesystem node at a path, as far as
`std::filesystem::is_regular_file` and the stream operations of `main.cpp`
distinguish it. -/
inductive FileNode (Doc : Type) where
  | absent
  | directory
  | regular (doc : Doc)
deriving DecidableEq, Repr

/-- `std::filesystem::is_regular_file` on the modelled node. -/
def isRegularFile {Doc : Type} : FileNode Doc → Bool
  | FileNode.regular _ => true
  | _ => false

/-- `LoadConfig` from `main.cpp`: default-construct a `Config`; if the file is
a regular file, parse it and `Deserialize` into the default-constructed value;
return the config either way. `deserialize doc cfg` stands for
`cfg.Deserialize(doc)` applied to `cfg`. -/
def LoadConfig {Doc : Type} (deserialize : Doc → Config → Config)
    (file : FileNode Doc) : Config :=
  match file with
  | FileNode.regular doc => deserialize doc defaultConfig
  | _ => defaultConfig

/-- `SaveConfig` from `main.cpp`: when `override || !cfg.DisableSaving`, open
the file stream and write the serialized config (creating/replacing the file's
contents); otherwise do nothing at all. `serialize` stands for
`cfg.Serialize(writer)` plus the comment header. -/
def SaveConfig {Doc : Type} (serialize : Config → Doc) (cfg : Config)
    (file : FileNode Doc) (override : Bool) : FileNode Doc :=
  if override || !cfg.DisableSaving then
    FileNode.regular (serialize cfg)
  else
    file

/-- The program state touched by the reload path of `main.cpp`: the pending
window-message queue of the message window, the shared `Config` value
(`static Config cfg`), the tray icon's visibility (`icon.Show()`/`icon.Hide()`),
the global log level (`Log::SetLevel`), and the config file's node. -/
structure ProgramState (Doc : Type) where
  queue : List Nat
  cfg : Config
  trayVisible : Bool
  logLevel : LogLevel
  node : FileNode Doc
deriving DecidableEq, Repr

/-- `SetConfig(current, newConfig, icon)` from `main.cpp`: show or hide the
tray icon when `HideTray` changed, update the log level when `LogVerbosity`
changed, then assign the entire new `Config` over the current one
(`current = std::forward<Config>(newConfig)`). -/
def SetConfig {Doc : Type} (st : ProgramState Doc) (newConfig : Config) :
    ProgramState Doc :=
  { st with
    trayVisible :=
      if st.cfg.HideTray = newConfig.HideTray then st.trayVisible
      else !newConfig.HideTray,
    logLevel :=
      if st.cfg.LogVerbosity = newConfig.LogVerbosity then st.logLevel
      else newConfig.LogVerbosity,
    cfg := newConfig }

/-- The `WM_FILECHANGED` callback registered in `InitializeTray`:
`SetConfig(cfg, LoadConfig(run.config_file), tray)` — load a fresh config from
the file and install it as a whole. -/
def handleFileChanged {Doc : Type} (deserialize : Doc → Config → Config)
    (st : ProgramState Doc) : ProgramState Doc :=
  SetConfig st (LoadConfig deserialize st.node)

/-- The config file name (`CONFIG_FILE` from the absent `constants.hpp`). -/
def CONFIG_FILE : String := "config.json"

/-- `Util::IgnoreCaseStringEquals` (header absent from the source tree):
case-insensitive string comparison. -/
def ignoreCaseStringEquals (a b : String) : Bool :=
  a.toLower = b.toLower

/-- The folder-change-reader callback from `InitializeTray`: when the changed
file name is empty or case-insensitively equals `CONFIG_FILE`, post
`WM_FILECHANGED` to the message window and return; nothing else happens on the
notification thread (in particular the shared `Config` is not touched). -/
def folderChangeCallback {Doc : Type} (st : ProgramState Doc) (file : String) :
    ProgramState Doc :=
  if file = "" || ignoreCaseStringEquals file CONFIG_FILE then
    { st with queue := st.queue ++ [WM_FILECHANGED] }
  else
    st

/-! ### Tray context-menu bindings

`TrayContextMenu` registration is embedded as an accumulating record: the list
of `(menu id, callback)` pairs registered through
`RegisterContextMenuCallback`, and the number of handlers registered through
`RegisterCustomRefresh`. A callback's effect is modelled as its action on the
shared `Config` value — the projection the C1/C8 claims are about; effects
outside the config (opening dialogs, writing the file, querying autostart) are
noted entry by entry in `initializeTrayBindings`. The C++ combinators bind
references into `cfg`; a reference is embedded as a getter/setter pair
(`FieldRef`). -/

/-- A reference to a component of the shared `Config` (`bool &value`,
`COLORREF &color`, `T &value` in the C++ combinators). -/
structure FieldRef (T : Type) where
  get : Config → T
  set : T → Config → Config

/-- The registration state of the tray context menu. -/
structure TrayMenu where
  callbacks : List (Nat × (Config → Config))
  refreshes : Nat

/-- A `TrayContextMenu` with nothing registered yet. -/
def emptyTray : TrayMenu :=
  { callbacks := [], refreshes := 0 }

/-- `tray.RegisterContextMenuCallback(id, callback)`. -/
def RegisterContextMenuCallback (t : TrayMenu) (id : Nat)
    (callback : Config → Config) : TrayMenu :=
  { t with callbacks := t.callbacks ++ [(id, callback)] }

/-- `tray.RegisterCustomRefresh(...)`: refresh handlers only repaint menu
items (check marks, radio groups, enabled state); they never change the
config, so only their count is tracked. -/
def RegisterCustomRefresh (t : TrayMenu) : TrayMenu :=
  { t with refreshes := t.refreshes + 1 }

/-- `BindColor` from `main.cpp`: its body is a `// TODO: no-op` — it registers
nothing at all. -/
def BindColor (t : TrayMenu) (_id : Nat) (_color : FieldRef Nat) : TrayMenu :=
  t

/-- `BindByMap(tray, map, getter, setter)` from `main.cpp`: for every
`(new_value, id)` entry register a callback `setter(new_value)` under `id`,
then register one custom-refresh handler (which radio-checks the item for
`getter()`; refresh handlers are tracked only by count, so the getter and the
`minmax_element` computation drop out). -/
def BindByMap {T : Type} (t : TrayMenu) (map : List (T × Nat))
    (_getter : Config → T) (setter : T → Config → Config) : TrayMenu :=
  RegisterCustomRefresh
    (map.foldl (fun tr p => RegisterContextMenuCallback tr p.2 (setter p.1)) t)

/-- The reference overload of `BindByMap`: getter reads the referenced field,
setter writes `value = new_value` into it in place. -/
def BindByMapRef {T : Type} (t : TrayMenu) (map : List (T × Nat))
    (value : FieldRef T) : TrayMenu :=
  BindByMap t map value.get (fun new_value => value.set new_value)

/-- `BindBool(tray, item, value)` from `main.cpp`: register a callback that
flips the referenced bool in place (`value = !value`), plus one custom-refresh
handler (check mark). -/
def BindBool (t : TrayMenu) (item : Nat) (value : FieldRef Bool) : TrayMenu :=
  RegisterCustomRefresh
    (RegisterContextMenuCallback t item (fun c => value.set (!value.get c) c))

/-- `BindBoolToEnabled` from `main.cpp`: registers only a custom-refresh
handler (enables/disables the item); no callback. -/
def BindBoolToEnabled (t : TrayMenu) (_item : Nat) (_value : FieldRef Bool) :
    TrayMenu :=
  RegisterCustomRefresh t

/-- `BindAppearance(tray, appearance, colorId, map)` (the `TaskbarAppearance`
overload): `BindColor` on the colour item, then `BindByMap` on the accent. -/
def BindAppearance (t : TrayMenu) (accent : FieldRef ACCENT_STATE)
    (color : FieldRef Nat) (colorId : Nat) (map : List (ACCENT_STATE × Nat)) :
    TrayMenu :=
  BindByMapRef (BindColor t colorId color) map accent

/-- `BindAppearance(tray, appearance, enableId, colorId, map)` (the
`OptionalTaskbarAppearance` overload): `BindBool` on the enable flag, the
plain-appearance `BindAppearance`, then `BindBoolToEnabled` for every accent
menu item. -/
def BindAppearanceOpt (t : TrayMenu) (enabled : FieldRef Bool)
    (accent : FieldRef ACCENT_STATE) (color : FieldRef Nat)
    (enableId colorId : Nat) (map : List (ACCENT_STATE × Nat)) : TrayMenu :=
  let t1 := BindBool t enableId enabled
  let t2 := BindAppearance t1 accent color colorId map
  map.foldl (fun tr p => BindBoolToEnabled tr p.2 enabled) t2

/-- Activating menu item `id`: the message loop runs every callback registered
under that id, in registration order. -/
def activate (t : TrayMenu) (id : Nat) (cfg : Config) : Config :=
  t.callbacks.foldl (fun c p => if p.1 = id then p.2 c else c) cfg

/-! ### The references `InitializeTray` binds into `cfg` -/

def refUseRegularAppearanceWhenPeeking : FieldRef Bool :=
  { get := fun c => c.UseRegularAppearanceWhenPeeking,
    set := fun v c => { c with UseRegularAppearanceWhenPeeking := v } }

def refDisableSaving : FieldRef Bool :=
  { get := fun c => c.DisableSaving,
    set := fun v c => { c with DisableSaving := v } }

def refPeek : FieldRef PeekBehavior :=
  { get := fun c => c.Peek, set := fun v c => { c with Peek := v } }

def refDesktopAccent : FieldRef ACCENT_STATE :=
  { get := fun c => c.DesktopAppearance.Accent,
    set := fun v c =>
      { c with DesktopAppearance := { c.DesktopAppearance with Accent := v } } }

def refDesktopColor : FieldRef Nat :=
  { get := fun c => c.DesktopAppearance.Color,
    set := fun v c =>
      { c with DesktopAppearance := { c.DesktopAppearance with Color := v } } }

def refVisibleEnabled : FieldRef Bool :=
  { get := fun c => c.VisibleWindowAppearance.Enabled,
    set := fun v c =>
      { c with VisibleWindowAppearance :=
        { c.VisibleWindowAppearance with Enabled := v } } }

def refVisibleAccent : FieldRef ACCENT_STATE :=
  { get := fun c => c.VisibleWindowAppearance.Accent,
    set := fun v c =>
      { c with VisibleWindowAppearance :=
        { c.VisibleWindowAppearance with Accent := v } } }

def refVisibleColor : FieldRef Nat :=
  { get := fun c => c.VisibleWindowAppearance.Color,
    set := fun v c =>
      { c with VisibleWindowAppearance :=
        { c.VisibleWindowAppearance with Color := v } } }

def refMaximisedEnabled : FieldRef Bool :=
  { get := fun c => c.MaximisedWindowAppearance.Enabled,
    set := fun v c =>
      { c with MaximisedWindowAppearance :=
        { c.MaximisedWindowAppearance with Enabled := v } } }

def refMaximisedAccent : FieldRef ACCENT_STATE :=
  { get := fun c => c.MaximisedWindowAppearance.Accent,
    set := fun v c =>
      { c with MaximisedWindowAppearance :=
        { c.MaximisedWindowAppearance with Accent := v } } }

def refMaximisedColor : FieldRef Nat :=
  { get := fun c => c.MaximisedWindowAppearance.Color,
    set := fun v c =>
      { c with MaximisedWindowAppearance :=
        { c.MaximisedWindowAppearance with Color := v } } }

def refStartEnabled : FieldRef Bool :=
  { get := fun c => c.StartOpenedAppearance.Enabled,
    set := fun v c =>
      { c with StartOpenedAppearance :=
        { c.StartOpenedAppearance with Enabled := v } } }

def refStartAccent : FieldRef ACCENT_STATE :=
  { get := fun c => c.StartOpenedAppearance.Accent,
    set := fun v c =>
      { c with StartOpenedAppearance :=
        { c.StartOpenedAppearance with Accent := v } } }

def refStartColor : FieldRef Nat :=
  { get := fun c => c.StartOpenedAppearance.Color,
    set := fun v c =>
      { c with StartOpenedAppearance :=
        { c.StartOpenedAppearance with Color := v } } }

def refCortanaEnabled : FieldRef Bool :=
  { get := fun c => c.CortanaOpenedAppearance.Enabled,
    set := fun v c =>
      { c with CortanaOpenedAppearance :=
        { c.CortanaOpenedAppearance with Enabled := v } } }

def refCortanaAccent : FieldRef ACCENT_STATE :=
  { get := fun c => c.CortanaOpenedAppearance.Accent,
    set := fun v c =>
      { c with CortanaOpenedAppearance :=
        { c.CortanaOpenedAppearance with Accent := v } } }

def refCortanaColor : FieldRef Nat :=
  { get := fun c => c.CortanaOpenedAppearance.Color,
    set := fun v c =>
      { c with CortanaOpenedAppearance :=
        { c.CortanaOpenedAppearance with Color := v } } }

def refTimelineEnabled : FieldRef Bool :=
  { get := fun c => c.TimelineOpenedAppearance.Enabled,
    set := fun v c =>
      { c with TimelineOpenedAppearance :=
        { c.TimelineOpenedAppearance with Enabled := v } } }

def refTimelineAccent : FieldRef ACCENT_STATE :=
  { get := fun c => c.TimelineOpenedAppearance.Accent,
    set := fun v c =>
      { c with TimelineOpenedAppearance :=
        { c.TimelineOpenedAppearance with Accent := v } } }

def refTimelineColor : FieldRef Nat :=
  { get := fun c => c.TimelineOpenedAppearance.Color,
    set := fun v c =>
      { c with TimelineOpenedAppearance :=
        { c.TimelineOpenedAppearance with Color := v } } }

/-- The tray-menu registrations performed by `InitializeTray` (`main.cpp`
lines 451–530), in source order, projected to their effect on the shared
`Config`. Callbacks whose body touches no field of `cfg` — `ID_OPENLOG`
(opens the log file), `ID_EDITSETTINGS` and `ID_RETURNTODEFAULTSETTINGS`
(write the config file, leaving the in-memory value alone), `ID_DUMPWORKER` /
`ID_RESETWORKER` (call into the worker), `ID_ABOUT`, `ID_EXITWITHOUTSAVING`,
`ID_AUTOSTART`, `ID_TIPS`, `ID_EXIT` — are identities on `Config`. The
`LOG_BUTTON_MAP` setter also calls `Log::SetLevel`; its config effect is the
`LogVerbosity` assignment. `ID_HIDETRAY` sets `cfg.HideTray = true` in its
user-confirmed branch (the `IDYES` answer to the message box); the
unconfirmed branch is the identity and is not separately modelled. -/
def initializeTrayBindings : TrayMenu :=
  let t := emptyTray
  let t := BindBool t ID_DESKTOP_ON_PEEK refUseRegularAppearanceWhenPeeking
  let t := BindAppearance t refDesktopAccent refDesktopColor ID_DESKTOP_COLOR
    DESKTOP_BUTTOM_MAP
  let t := BindAppearanceOpt t refVisibleEnabled refVisibleAccent
    refVisibleColor ID_VISIBLE ID_VISIBLE_COLOR VISIBLE_BUTTOM_MAP
  let t := BindAppearanceOpt t refMaximisedEnabled refMaximisedAccent
    refMaximisedColor ID_MAXIMISED ID_MAXIMISED_COLOR MAXIMISED_BUTTON_MAP
  let t := BindAppearanceOpt t refStartEnabled refStartAccent refStartColor
    ID_START ID_START_COLOR START_BUTTON_MAP
  let t := BindAppearanceOpt t refCortanaEnabled refCortanaAccent
    refCortanaColor ID_CORTANA ID_CORTANA_COLOR CORTANA_BUTTON_MAP
  let t := BindAppearanceOpt t refTimelineEnabled refTimelineAccent
    refTimelineColor ID_TIMELINE ID_TIMELINE_COLOR TIMELINE_BUTTON_MAP
  let t := BindByMapRef t PEEK_BUTTON_MAP refPeek
  let t := RegisterContextMenuCallback t ID_OPENLOG (fun c => c)
  let t := BindByMap t LOG_BUTTON_MAP (fun c => c.LogVerbosity)
    (fun new_value c => { c with LogVerbosity := new_value })
  let t := RegisterContextMenuCallback t ID_EDITSETTINGS (fun c => c)
  let t := RegisterContextMenuCallback t ID_RETURNTODEFAULTSETTINGS (fun c => c)
  let t := BindBool t ID_DISABLESAVING refDisableSaving
  let t := RegisterContextMenuCallback t ID_HIDETRAY
    (fun c => { c with HideTray := true })
  let t := RegisterContextMenuCallback t ID_DUMPWORKER (fun c => c)
  let t := RegisterContextMenuCallback t ID_RESETWORKER (fun c => c)
  let t := RegisterContextMenuCallback t ID_ABOUT (fun c => c)
  let t := RegisterContextMenuCallback t ID_EXITWITHOUTSAVING (fun c => c)
  let t := RegisterContextMenuCallback t ID_AUTOSTART (fun c => c)
  let t := RegisterContextMenuCallback t ID_TIPS (fun c => c)
  let t := RegisterContextMenuCallback t ID_EXIT (fun c => c)
  RegisterCustomRefresh t

/-! ### Spec-modelled worker components

`TaskbarAttributeWorker` lives in `taskbar/taskbarattributeworker.hpp`, which
is not part of the source tree; `main.cpp` only constructs it and binds its
diagnostic operations. The attribute applier, the appearance resolver and the
worker's UI-facing interface are therefore modelled from the spec. -/

/-- Modelled from the spec: a taskbar instance "tracks last-applied
`TaskbarAppearance` (for dedup)"; `ResetState` clears the cache, so the
tracked value is optional. -/
structure TaskbarInstance where
  lastApplied : Option TaskbarAppearance
deriving DecidableEq, Repr

/-- Modelled from the spec: the attribute applier.
`Apply(taskbarInstance, appearance)` "skips the OS call entirely if
`appearance == taskbarInstance.lastApplied` (structural equality on
Accent+Color)"; "on success, updates `lastApplied`". The returned flag is
whether the underlying OS composition call was performed (the success path is
modelled; a failed OS call is retried on the next trigger and does not affect
dedup state). -/
def Apply (inst : TaskbarInstance) (appearance : TaskbarAppearance) :
    TaskbarInstance × Bool :=
  if inst.lastApplied = some appearance then
    (inst, false)
  else
    ({ lastApplied := some appearance }, true)

/-- Modelled from the spec: the window-state classification
`{Desktop, StartMenu, SearchOrCortana, TimelineOrTaskView, MaximisedApp,
RegularApp, None}`. -/
inductive Classification where
  | Desktop
  | StartMenu
  | SearchOrCortana
  | TimelineOrTaskView
  | MaximisedApp
  | RegularApp
  | NoWindow
deriving DecidableEq, Repr

/-- Modelled from the spec: the per-monitor `WindowStateSnapshot` — whether a
peek gesture is active, the classification of the monitor's
foreground-relevant window, and the monitor facts the `PeekBehavior` rules
consult. -/
structure WindowStateSnapshot where
  PeekActive : Bool
  classification : Classification
  mainMonitorMaximised : Bool
  anyMonitorMaximised : Bool
  desktopIsForeground : Bool
deriving DecidableEq, Repr

/-- Modelled from the spec: whether the configured `PeekBehavior` indicates
showing the desktop appearance for this monitor (`AlwaysShow` always;
`WindowMaximisedOnMainMonitor` iff the main monitor's foreground window is
maximized; `WindowMaximisedOnAnyMonitor` iff any monitor has one;
`DesktopIsForegroundWindow` iff Desktop is foreground; `AlwaysHide` never). -/
def peekQualifies (cfg : Config) (s : WindowStateSnapshot) : Bool :=
  match cfg.Peek with
  | PeekBehavior.AlwaysShow => true
  | PeekBehavior.WindowMaximisedOnMainMonitor => s.mainMonitorMaximised
  | PeekBehavior.WindowMaximisedOnAnyMonitor => s.anyMonitorMaximised
  | PeekBehavior.DesktopIsForegroundWindow => s.desktopIsForeground
  | PeekBehavior.AlwaysHide => false

/-- Modelled from the spec: step 2 of the resolver — the
`OptionalTaskbarAppearance` selected by the classification precedence
(StartMenu → Start, SearchOrCortana → Cortana, TimelineOrTaskView → Timeline,
MaximisedApp → Maximised, otherwise → VisibleWindow). -/
def selectOptional (cfg : Config) : Classification → OptionalTaskbarAppearance
  | Classification.StartMenu => cfg.StartOpenedAppearance
  | Classification.SearchOrCortana => cfg.CortanaOpenedAppearance
  | Classification.TimelineOrTaskView => cfg.TimelineOpenedAppearance
  | Classification.MaximisedApp => cfg.MaximisedWindowAppearance
  | _ => cfg.VisibleWindowAppearance

/-- Modelled from the spec: the appearance resolver
`Resolve(config, snapshot, monitor)` (the snapshot is already the per-monitor
one, so the monitor argument is folded into it). Step 1: peek active,
qualifying, and `UseRegularAppearanceWhenPeeking` false → desktop appearance.
Step 2: select by classification precedence. Step 3: if the selected optional
appearance is disabled, fall through to `DesktopAppearance`. Total by
construction. -/
def Resolve (cfg : Config) (s : WindowStateSnapshot) : TaskbarAppearance :=
  if s.PeekActive && peekQualifies cfg s && !cfg.UseRegularAppearanceWhenPeeking
  then
    cfg.DesktopAppearance
  else
    let o := selectOptional cfg s.classification
    if o.Enabled then o.toAppearance else cfg.DesktopAppearance

/-- The worker's UI-facing entry points: apply-now, dump-state, reset-state
and config-changed. The type has exactly these four constructors, matching the
spec's interface list; `DumpState`/`ResetState` and the config-changed message
are wired in `InitializeTray`. -/
inductive WorkerEntryPoint where
  | applyNow
  | dumpState
  | resetState
  | configChanged
deriving DecidableEq, Repr

/-- How the UI layer reaches a worker entry point: a tray-menu command, a
window message posted to the message window, or a direct call on the worker. -/
inductive UIRoute where
  | menuCommand (id : Nat)
  | windowMessage (msg : Nat)
  | directCall
deriving DecidableEq, Repr

/-- The routes by which the UI layer invokes each entry point. `dumpState` and
`resetState` are bound to the `ID_DUMPWORKER` / `ID_RESETWORKER` menu commands
and `configChanged` is raised by the folder watcher through `WM_FILECHANGED`
(`main.cpp`); the `applyNow` route is modelled from the spec: the worker's
diagnostic interface (`taskbarattributeworker.hpp`, absent from the source
tree) exposes `ApplyNow()` as a directly callable entry point. -/
def entryPointRoutes : WorkerEntryPoint → List UIRoute
  | WorkerEntryPoint.dumpState => [UIRoute.menuCommand ID_DUMPWORKER]
  | WorkerEntryPoint.resetState => [UIRoute.menuCommand ID_RESETWORKER]
  | WorkerEntryPoint.configChanged => [UIRoute.windowMessage WM_FILECHANGED]
  | WorkerEntryPoint.applyNow => [UIRoute.directCall]

/-! ## Theorems -/

/-- C2: for every taskbar instance and every appearance, calling `Apply` twice
in a row with an unchanged appearance performs at most one underlying OS
composition call — the second call is always skipped, because after the first
call the appearance equals the instance's `lastApplied` under structural
equality. -/
theorem apply_dedups_repeat_c2 (inst : TaskbarInstance)
    (appearance : TaskbarAppearance) :
    (Apply (Apply inst appearance).1 appearance).2 = false ∧
    (if (Apply inst appearance).2 then 1 else 0) +
      (if (Apply (Apply inst appearance).1 appearance).2 then 1 else 0) ≤ 1 := by
  by_cases h : inst.lastApplied = some appearance <;>
    simp [Apply, h]

/-- C3: whenever the `OptionalTaskbarAppearance` selected by the
classification precedence is disabled, `Resolve` returns the
`DesktopAppearance`; in particular, with `VisibleWindowAppearance.Enabled =
false` and classification `RegularApp` the resolver returns
`DesktopAppearance`. (`Resolve` is a total Lean function, so it always yields
a value.) -/
theorem resolve_disabled_falls_back_c3 :
    (∀ (cfg : Config) (s : WindowStateSnapshot),
      (selectOptional cfg s.classification).Enabled = false →
      Resolve cfg s = cfg.DesktopAppearance) ∧
    (∀ (cfg : Config) (s : WindowStateSnapshot),
      s.classification = Classification.RegularApp →
      cfg.VisibleWindowAppearance.Enabled = false →
      Resolve cfg s = cfg.DesktopAppearance) := by
  constructor
  · intro cfg s h
    unfold Resolve
    split
    · rfl
    · simp [h]
  · intro cfg s hclass h
    unfold Resolve
    split
    · rfl
    · simp [hclass, selectOptional, h]

/-- Witness for C3 at a concrete input: default config (whose
`VisibleWindowAppearance` is disabled) and a regular-app snapshot. -/
theorem resolve_disabled_falls_back_c3_witness :
    Resolve defaultConfig
      { PeekActive := false, classification := Classification.RegularApp,
        mainMonitorMaximised := false, anyMonitorMaximised := false,
        desktopIsForeground := false } = defaultConfig.DesktopAppearance :=
  resolve_disabled_falls_back_c3.2 defaultConfig
    { PeekActive := false, classification := Classification.RegularApp,
      mainMonitorMaximised := false, anyMonitorMaximised := false,
      desktopIsForeground := false } rfl rfl

/-- C7: every accent-state-to-menu-ID map of `main.cpp` has exactly the five
accent states `ACCENT_NORMAL`, `ACCENT_ENABLE_TRANSPARENTGRADIENT`,
`ACCENT_ENABLE_GRADIENT`, `ACCENT_ENABLE_BLURBEHIND`,
`ACCENT_ENABLE_ACRYLICBLURBEHIND` as its key set: the key lists coincide, have
no duplicates, and exhaust the `ACCENT_STATE` type. -/
theorem accent_map_keys_c7 :
    accentKeys DESKTOP_BUTTOM_MAP =
      [ACCENT_NORMAL, ACCENT_ENABLE_TRANSPARENTGRADIENT, ACCENT_ENABLE_GRADIENT,
       ACCENT_ENABLE_BLURBEHIND, ACCENT_ENABLE_ACRYLICBLURBEHIND] ∧
    accentKeys VISIBLE_BUTTOM_MAP = accentKeys DESKTOP_BUTTOM_MAP ∧
    accentKeys MAXIMISED_BUTTON_MAP = accentKeys DESKTOP_BUTTOM_MAP ∧
    accentKeys START_BUTTON_MAP = accentKeys DESKTOP_BUTTOM_MAP ∧
    accentKeys CORTANA_BUTTON_MAP = accentKeys DESKTOP_BUTTOM_MAP ∧
    accentKeys TIMELINE_BUTTON_MAP = accentKeys DESKTOP_BUTTOM_MAP ∧
    (accentKeys DESKTOP_BUTTOM_MAP).Nodup ∧
    ∀ a : ACCENT_STATE, a ∈ accentKeys DESKTOP_BUTTOM_MAP := by
  refine ⟨rfl, rfl, rfl, rfl, rfl, rfl, by decide, ?_⟩
  intro a
  cases a <;> decide

/-- C9: `SaveConfig` writes the file (replacing its contents with the
serialized config) exactly when `override` is true or `cfg.DisableSaving` is
false; when `DisableSaving` is true and `override` is false it performs no
write and the file's node is unchanged. -/
theorem saveConfig_respects_disableSaving_c9 {Doc : Type}
    (serialize : Config → Doc) (cfg : Config) (file : FileNode Doc)
    (override : Bool) :
    (override = true ∨ cfg.DisableSaving = false →
      SaveConfig serialize cfg file override =
        FileNode.regular (serialize cfg)) ∧
    (override = false → cfg.DisableSaving = true →
      SaveConfig serialize cfg file override = file) := by
  constructor
  · rintro (h | h) <;> simp [SaveConfig, h]
  · intro hov hds
    simp [SaveConfig, hov, hds]

/-- Witness for C9 at a concrete input: a config with `DisableSaving = true`
is not written without `override`, and is written with it. -/
theorem saveConfig_respects_disableSaving_c9_witness :
    SaveConfig (fun c => c) { defaultConfig with DisableSaving := true }
      FileNode.absent false = FileNode.absent ∧
    SaveConfig (fun c => c) { defaultConfig with DisableSaving := true }
      FileNode.absent true =
      FileNode.regular { defaultConfig with DisableSaving := true } :=
  ⟨(saveConfig_respects_disableSaving_c9 (fun c => c)
      { defaultConfig with DisableSaving := true } FileNode.absent false).2
      rfl rfl,
   (saveConfig_respects_disableSaving_c9 (fun c => c)
      { defaultConfig with DisableSaving := true } FileNode.absent true).1
      (Or.inl rfl)⟩

/-- C10: for every file node that is not a regular file (deleted config file,
or the path being a directory), `LoadConfig` does not fail — it returns the
default-constructed `Config`, restoring the default configuration. -/
theorem loadConfig_default_on_missing_c10 {Doc : Type}
    (deserialize : Doc → Config → Config) (file : FileNode Doc)
    (h : isRegularFile file = false) :
    LoadConfig deserialize file = defaultConfig := by
  cases file with
  | absent => rfl
  | directory => rfl
  | regular doc => simp [isRegularFile] at h

/-- Witness for C10 at a concrete input: an absent config file loads as the
default configuration. -/
theorem loadConfig_default_on_missing_c10_witness :
    @LoadConfig Unit (fun _ c => c) FileNode.absent = defaultConfig :=
  @loadConfig_default_on_missing_c10 Unit (fun _ c => c) FileNode.absent rfl

/-- C4: on every `WM_FILECHANGED` message, the registered handler loads a
fresh `Config` from the config file and installs it as a full replacement: the
resulting shared config is exactly `LoadConfig` of the file's current node,
whatever the previous config was. -/
theorem fileChanged_loads_fresh_config_c4 {Doc : Type}
    (deserialize : Doc → Config → Config) (st : ProgramState Doc) :
    (handleFileChanged deserialize st).cfg = LoadConfig deserialize st.node ∧
    ∀ c : Config,
      (handleFileChanged deserialize { st with cfg := c }).cfg =
        (handleFileChanged deserialize st).cfg := by
  exact ⟨rfl, fun c => rfl⟩

/-- C5: the worker-facing interface consists of exactly the four entry points
apply-now, dump-state, reset-state and config-changed, and the UI layer can
invoke each of them: `DumpState`/`ResetState` are registered as the
`ID_DUMPWORKER`/`ID_RESETWORKER` tray-menu commands in `InitializeTray`,
config-changed is raised by the folder watcher posting `WM_FILECHANGED`, and
`ApplyNow` is directly callable on the worker (the latter modelled from the
spec, the worker header being absent from the source tree). -/
theorem worker_entry_points_c5 :
    (∀ e : WorkerEntryPoint,
      e = WorkerEntryPoint.applyNow ∨ e = WorkerEntryPoint.dumpState ∨
      e = WorkerEntryPoint.resetState ∨ e = WorkerEntryPoint.configChanged) ∧
    (∀ e : WorkerEntryPoint, entryPointRoutes e ≠ []) ∧
    (initializeTrayBindings.callbacks.map Prod.fst).contains ID_DUMPWORKER
      = true ∧
    (initializeTrayBindings.callbacks.map Prod.fst).contains ID_RESETWORKER
      = true ∧
    entryPointRoutes WorkerEntryPoint.dumpState =
      [UIRoute.menuCommand ID_DUMPWORKER] ∧
    entryPointRoutes WorkerEntryPoint.resetState =
      [UIRoute.menuCommand ID_RESETWORKER] ∧
    entryPointRoutes WorkerEntryPoint.configChanged =
      [UIRoute.windowMessage WM_FILECHANGED] ∧
    ∀ (st : ProgramState Unit),
      (folderChangeCallback st CONFIG_FILE).queue =
        st.queue ++ [WM_FILECHANGED] := by
  refine ⟨fun e => ?_, fun e => ?_, by decide, by decide, rfl, rfl, rfl,
    fun st => ?_⟩
  · cases e
    · exact Or.inl rfl
    · exact Or.inr (Or.inl rfl)
    · exact Or.inr (Or.inr (Or.inl rfl))
    · exact Or.inr (Or.inr (Or.inr rfl))
  · cases e <;> simp [entryPointRoutes]
  · simp [folderChangeCallback, ignoreCaseStringEquals]

/-- C6: the folder-change callback never touches the shared `Config`, the
tray, the log level or the file: its only effect is to append at most one
`WM_FILECHANGED` message to the window's queue and return; loading and
installing the config happens only in the message-loop handler, which reads
the file's node that the callback left untouched. -/
theorem folderChange_enqueues_only_c6 {Doc : Type} (st : ProgramState Doc)
    (file : String) :
    (folderChangeCallback st file).cfg = st.cfg ∧
    (folderChangeCallback st file).node = st.node ∧
    (folderChangeCallback st file).trayVisible = st.trayVisible ∧
    (folderChangeCallback st file).logLevel = st.logLevel ∧
    ((folderChangeCallback st file).queue = st.queue ++ [WM_FILECHANGED] ∨
      (folderChangeCallback st file).queue = st.queue) ∧
    ∀ deserialize : Doc → Config → Config,
      (handleFileChanged deserialize (folderChangeCallback st file)).cfg =
        LoadConfig deserialize st.node := by
  unfold folderChangeCallback
  split <;> simp [handleFileChanged, SetConfig]

/-- C1 counterexample: the claim "no code path mutates an individual field of
the shared `Config` in place" is false. Activating the `ID_DESKTOP_ON_PEEK`
menu item — whose callback `BindBool` registers over a reference into the
shared config — changes the shared `Config` (so it is a mutation), and its
result depends on the previous value of the config (so it is not a
whole-value replacement): it flips the `UseRegularAppearanceWhenPeeking`
field in place. -/
theorem config_field_mutation_c1_counterexample :
    activate initializeTrayBindings ID_DESKTOP_ON_PEEK defaultConfig ≠
      defaultConfig ∧
    activate initializeTrayBindings ID_DESKTOP_ON_PEEK defaultConfig ≠
      activate initializeTrayBindings ID_DESKTOP_ON_PEEK
        { defaultConfig with UseRegularAppearanceWhenPeeking := false } := by
  constructor <;> decide

/-- C1 amended: config-changed triggers do install a complete new `Config`
over the old one — the `WM_FILECHANGED` handler's resulting config is
`LoadConfig` of the file, independent of the previous value — but tray-menu
bindings mutate individual fields of the shared `Config` in place: the
`ID_DESKTOP_ON_PEEK` callback registered through `BindBool` flips exactly the
`UseRegularAppearanceWhenPeeking` field of the old value. -/
theorem config_updates_c1_amended {Doc : Type}
    (deserialize : Doc → Config → Config) (st : ProgramState Doc) :
    ((handleFileChanged deserialize st).cfg = LoadConfig deserialize st.node ∧
      ∀ c : Config,
        (handleFileChanged deserialize { st with cfg := c }).cfg =
          (handleFileChanged deserialize st).cfg) ∧
    ∀ c : Config,
      activate initializeTrayBindings ID_DESKTOP_ON_PEEK c =
        { c with UseRegularAppearanceWhenPeeking :=
            !c.UseRegularAppearanceWhenPeeking } := by
  exact ⟨⟨rfl, fun c => rfl⟩, fun c => rfl⟩

/-- Registering one callback per map entry appends exactly the corresponding
`(id, setter)` pairs to the callback list. -/
theorem registerFold_callbacks {T : Type} (map : List (T × Nat))
    (s : T → Config → Config) (t : TrayMenu) :
    (map.foldl (fun tr p => RegisterContextMenuCallback tr p.2 (s p.1))
        t).callbacks =
      t.callbacks ++ map.map (fun p => (p.2, s p.1)) := by
  induction map generalizing t with
  | nil => simp
  | cons hd tl ih =>
    rw [List.foldl_cons, ih]
    simp [RegisterContextMenuCallback]

/-- Folding the activation step over callbacks none of which carries the
activated id leaves the config unchanged. -/
theorem activateFold_miss (extra : List (Nat × (Config → Config))) (id : Nat)
    (cfg : Config) (h : ∀ p ∈ extra, p.1 ≠ id) :
    extra.foldl (fun c p => if p.1 = id then p.2 c else c) cfg = cfg := by
  induction extra generalizing cfg with
  | nil => rfl
  | cons hd tl ih =>
    have hhd : hd.1 ≠ id := h hd (List.mem_cons_self hd tl)
    simp only [List.foldl_cons, if_neg hhd]
    exact ih cfg fun p hp => h p (List.mem_cons_of_mem hd hp)

/-- C8: `BindColor` registers no callback and no refresh handler — it returns
the tray untouched — and consequently, for every appearance bound through
`BindAppearance`, activating the colour menu item runs only whatever was
registered before the bind (nothing, in `InitializeTray`): as long as the
colour id is not an accent id of the map, the config after activation is
exactly what activating on the pre-bind tray gives, so the appearance's
`Color` field and all other state are unchanged. -/
theorem bindColor_inert_c8 :
    (∀ (t : TrayMenu) (id : Nat) (color : FieldRef Nat),
      BindColor t id color = t) ∧
    (∀ (t : TrayMenu) (accent : FieldRef ACCENT_STATE) (color : FieldRef Nat)
        (colorId : Nat) (map : List (ACCENT_STATE × Nat)) (cfg : Config),
      (∀ p ∈ map, p.2 ≠ colorId) →
      activate (BindAppearance t accent color colorId map) colorId cfg =
        activate t colorId cfg) := by
  refine ⟨fun t id color => rfl, ?_⟩
  intro t accent color colorId map cfg h
  unfold BindAppearance BindByMapRef BindByMap BindColor activate
  rw [RegisterCustomRefresh]
  simp only
  rw [registerFold_callbacks, List.foldl_append]
  rw [activateFold_miss]
  intro p hp
  rcases List.mem_map.mp hp with ⟨q, hq, rfl⟩
  exact h q hq

/-- Witness for C8 at a concrete input: binding the desktop appearance on an
empty tray; activating `ID_DESKTOP_COLOR` changes nothing. -/
theorem bindColor_inert_c8_witness :
    activate
        (BindAppearance emptyTray refDesktopAccent refDesktopColor
          ID_DESKTOP_COLOR DESKTOP_BUTTOM_MAP)
        ID_DESKTOP_COLOR defaultConfig =
      activate emptyTray ID_DESKTOP_COLOR defaultConfig :=
  bindColor_inert_c8.2 emptyTray refDesktopAccent refDesktopColor
    ID_DESKTOP_COLOR DESKTOP_BUTTOM_MAP defaultConfig (by decide)

end TTB
